import Mathlib

/-!
Verification of the email classification engine
(zenetodev/emailclassifier, `src/backend/src/services/ai_service.py`,
`email_service.py`, `models/email_model.py`, `utils/config.py`).

The Python code is shallowly embedded: numeric scores and confidences are
rationals, Python strings are Lean strings, dictionaries iterated in
insertion order become lists of pairs folded left to right, and the small
set of regular expressions used with `re.search` is embedded as an
executable token matcher.  External collaborators (the Hugging Face HTTP
endpoints, the NLTK preprocessing corpus, the process salted `hash`,
`random.randint`, wall clock time) are passed in as explicit inputs of the
embedded functions, so every definition below is executable.
-/

namespace EmailClassifier

/-! ### String utilities mirroring the Python builtins used by the code -/

/-- Python substring containment: is `p` a (contiguous) prefix of `s`? -/
def prefixoDe : List Char → List Char → Bool
  | [], _ => true
  | _ :: _, [] => false
  | c :: p, x :: s => c == x && prefixoDe p s

/-- Python substring containment over character lists (`p in s`). -/
def infixoDe : List Char → List Char → Bool
  | p, [] => p.isEmpty
  | p, x :: s => prefixoDe p (x :: s) || infixoDe p s

/-- Embedding of the Python expression `padrao in texto` on strings. -/
def contemSub (padrao texto : String) : Bool :=
  infixoDe padrao.data texto.data

/-- Lowercasing of one character as Python `str.lower` does it on the
alphabet this repository uses: ASCII plus the accented Portuguese letters
appearing in the lexicon tables. -/
def charLowerPt (c : Char) : Char :=
  if c = 'Á' then 'á' else if c = 'À' then 'à' else if c = 'Â' then 'â'
  else if c = 'Ã' then 'ã' else if c = 'É' then 'é' else if c = 'È' then 'è'
  else if c = 'Ê' then 'ê' else if c = 'Í' then 'í' else if c = 'Ï' then 'ï'
  else if c = 'Ó' then 'ó' else if c = 'Ô' then 'ô' else if c = 'Õ' then 'õ'
  else if c = 'Ö' then 'ö' else if c = 'Ú' then 'ú' else if c = 'Ç' then 'ç'
  else if c = 'Ñ' then 'ñ' else if c = 'Ü' then 'ü' else c.toLower

/-- Embedding of Python `texto.lower()`. -/
def pyLower (s : String) : String := ⟨s.data.map charLowerPt⟩

/-- Whitespace in the sense of Python `str.split()` / `str.strip()`
(the inputs of this code base only use ASCII whitespace). -/
def espaco (c : Char) : Bool := c.isWhitespace

/-- Embedding of Python `texto.split()`: split on whitespace runs,
discarding empty pieces. -/
def pySplit (s : String) : List String :=
  (s.split (fun c => espaco c)).filter (fun t => t ≠ "")

/-! ### Banker style rounding, embedding Python `round(x, 3)` -/

/-- Round to the nearest integer, halves to the even neighbour, as Python
`round` does (modelled on exact rationals). -/
def roundHalfEven (q : ℚ) : ℤ :=
  let f := ⌊q⌋
  let r := q - f
  if r < 1/2 then f
  else if 1/2 < r then f + 1
  else if Even f then f else f + 1

/-- Embedding of Python `round(x, 3)` on exact rationals. -/
def round3 (q : ℚ) : ℚ := (roundHalfEven (q * 1000) : ℚ) / 1000

theorem roundHalfEven_intCast (m : ℤ) : roundHalfEven (m : ℚ) = m := by
  unfold roundHalfEven
  simp [Int.floor_intCast]

/-- `round(x, 3)` is the identity on multiples of `1/100`, which is where
all confidences produced by the local scorers live. -/
theorem round3_centesimo (n : ℤ) : round3 ((n : ℚ) / 100) = n / 100 := by
  unfold round3
  have h : ((n : ℚ) / 100) * 1000 = ((10 * n : ℤ) : ℚ) := by push_cast; ring
  rw [h, roundHalfEven_intCast]
  push_cast
  ring

/-! ### A tiny regex engine covering the patterns the code feeds `re.search`

The repository only uses literals, small character classes such as
`[aã]`, the escapes `\s+` and `\d` (`\d{3}` and `\d+`), and a single
unanchored wildcard `.*` (in `desejo.*feliz`).  Matching is existential,
exactly as backtracking `re.search` decides it. -/

inductive Tok where
  | lit (c : Char)
  | cls (cs : List Char)
  | wsPlus
  | digit
  | digitPlus
  | dotStar
  deriving DecidableEq

/-- Does the token list match a prefix of the character list?  Every
recursive call strictly decreases `p.length + s.length`, so the fuel
parameter (instantiated with `p.length + s.length + 1` in `matchHere`)
never reaches zero; it only makes the recursion structural. -/
def matchFuel : ℕ → List Tok → List Char → Bool
  | 0, _, _ => false
  | _ + 1, [], _ => true
  | _ + 1, Tok.lit _ :: _, [] => false
  | fuel + 1, Tok.lit c :: ps, x :: xs => x == c && matchFuel fuel ps xs
  | _ + 1, Tok.cls _ :: _, [] => false
  | fuel + 1, Tok.cls cs :: ps, x :: xs => cs.contains x && matchFuel fuel ps xs
  | _ + 1, Tok.digit :: _, [] => false
  | fuel + 1, Tok.digit :: ps, x :: xs => x.isDigit && matchFuel fuel ps xs
  | _ + 1, Tok.wsPlus :: _, [] => false
  | fuel + 1, Tok.wsPlus :: ps, x :: xs =>
      espaco x && (matchFuel fuel ps xs || matchFuel fuel (Tok.wsPlus :: ps) xs)
  | _ + 1, Tok.digitPlus :: _, [] => false
  | fuel + 1, Tok.digitPlus :: ps, x :: xs =>
      x.isDigit && (matchFuel fuel ps xs || matchFuel fuel (Tok.digitPlus :: ps) xs)
  | fuel + 1, Tok.dotStar :: ps, [] => matchFuel fuel ps []
  | fuel + 1, Tok.dotStar :: ps, x :: xs =>
      matchFuel fuel ps (x :: xs) || (x != '\n' && matchFuel fuel (Tok.dotStar :: ps) xs)

/-- Token match at the head of the character list. -/
def matchHere (p : List Tok) (s : List Char) : Bool :=
  matchFuel (p.length + s.length + 1) p s

def buscaAux (p : List Tok) : List Char → Bool
  | [] => matchHere p []
  | x :: xs => matchHere p (x :: xs) || buscaAux p xs

/-- Embedding of Python `re.search(padrao, texto) is not None`. -/
def reSearch (p : List Tok) (texto : String) : Bool := buscaAux p texto.data

/-- A run of literal tokens. -/
def lits (s : String) : List Tok := s.data.map Tok.lit

/-! ### The fast local fallback used by the orchestrator
(`classificar_localmente_aprimorado`, `_calcular_score_produtivo`,
`_calcular_score_improdutivo`, `_analisar_contexto_rapido`). -/

/-- Weighted regex table `problemas` of `_calcular_score_produtivo`. -/
def problemas : List (List Tok × ℚ) :=
  [ (lits "erro" ++ [Tok.wsPlus, Tok.digit, Tok.digit, Tok.digit], 3.0),
    (lits "n" ++ [Tok.cls ['a', 'ã']] ++ lits "o" ++ [Tok.wsPlus] ++ lits "funciona", 2.8),
    (lits "fora" ++ [Tok.wsPlus] ++ lits "do" ++ [Tok.wsPlus] ++ lits "ar", 2.8),
    (lits "bug", 2.5), (lits "falha", 2.5), (lits "quebrado", 2.5), (lits "parou", 2.5),
    (lits "travando", 2.0), (lits "lento", 1.8), (lits "problema", 2.0) ]

/-- Weighted regex table `solicitacoes` of `_calcular_score_produtivo`. -/
def solicitacoes : List (List Tok × ℚ) :=
  [ (lits "preciso" ++ [Tok.wsPlus] ++ lits "de", 2.0),
    (lits "necessito" ++ [Tok.wsPlus] ++ lits "de", 2.0),
    (lits "como" ++ [Tok.wsPlus] ++ lits "faço", 1.8),
    (lits "como" ++ [Tok.wsPlus] ++ lits "configurar", 1.8),
    (lits "d" ++ [Tok.cls ['u', 'ú']] ++ lits "vida", 1.5),
    (lits "ajuda", 1.5),
    (lits "solicita" ++ [Tok.cls ['c', 'ç']] ++ [Tok.cls ['a', 'ã']] ++ lits "o", 1.8),
    (lits "requisi" ++ [Tok.cls ['c', 'ç']] ++ [Tok.cls ['a', 'ã']] ++ lits "o", 1.8) ]

/-- Weighted regex table `agradecimentos` of `_calcular_score_improdutivo`. -/
def agradecimentos : List (List Tok × ℚ) :=
  [ (lits "muito" ++ [Tok.wsPlus] ++ lits "obrigad" ++ [Tok.cls ['a', 'o']], 3.0),
    (lits "agradeço" ++ [Tok.wsPlus] ++ lits "pelo", 2.8),
    (lits "obrigad" ++ [Tok.cls ['a', 'o']] ++ [Tok.wsPlus] ++ lits "pelo", 2.5),
    (lits "agradecimento", 2.0) ]

/-- Weighted regex table `elogios` of `_calcular_score_improdutivo`. -/
def elogios : List (List Tok × ℚ) :=
  [ (lits "parab" ++ [Tok.cls ['é', 'e']] ++ lits "ns", 3.0),
    (lits "excelente", 2.5), (lits "maravilhoso", 2.5), (lits "perfeito", 2.5),
    (lits "incr" ++ [Tok.cls ['i', 'í']] ++ lits "vel", 2.0),
    (lits "fant" ++ [Tok.cls ['a', 'á']] ++ lits "stico", 2.0) ]

/-- Weighted regex table `festas` of `_calcular_score_improdutivo`. -/
def festas : List (List Tok × ℚ) :=
  [ (lits "feliz" ++ [Tok.wsPlus] ++ lits "natal", 3.0),
    (lits "ano" ++ [Tok.wsPlus] ++ lits "novo", 2.8),
    (lits "boas" ++ [Tok.wsPlus] ++ lits "festas", 2.5),
    (lits "felicidades", 1.5),
    (lits "sa" ++ [Tok.cls ['u', 'ú']] ++ lits "de" ++ [Tok.wsPlus] ++ lits "e" ++ [Tok.wsPlus] ++ lits "paz", 1.5) ]

/-- The `for padrao, peso in tabela.items(): if re.search(...): score += peso`
loops of both scorers. -/
def somarPadroes (texto : String) (tabela : List (List Tok × ℚ)) (acc : ℚ) : ℚ :=
  tabela.foldl (fun a pw => if reSearch pw.1 texto then a + pw.2 else a) acc

/-- Embedding of `_calcular_score_produtivo`. -/
def calcular_score_produtivo (texto_lower : String) : ℚ :=
  let score := somarPadroes texto_lower problemas 0
  let score := somarPadroes texto_lower solicitacoes score
  let score := if contemSub "?" texto_lower then score + 1.0 else score
  let score :=
    if ["por favor", "urgente", "prioridade"].any (fun p => contemSub p texto_lower)
    then score + 1.2 else score
  score

/-- Embedding of `_calcular_score_improdutivo`. -/
def calcular_score_improdutivo (texto_lower : String) : ℚ :=
  let score := somarPadroes texto_lower agradecimentos 0
  let score := somarPadroes texto_lower elogios score
  let score := somarPadroes texto_lower festas score
  score

/-- The `sociais_fortes` regex list of `_analisar_contexto_rapido`. -/
def sociais_fortes_rapido : List (List Tok) :=
  [ lits "feliz" ++ [Tok.wsPlus] ++ lits "natal",
    lits "ano" ++ [Tok.wsPlus] ++ lits "novo",
    lits "boas" ++ [Tok.wsPlus] ++ lits "festas",
    lits "parab" ++ [Tok.cls ['é', 'e']] ++ lits "ns" ++ [Tok.wsPlus] ++ lits "pelo",
    lits "agradeço" ++ [Tok.wsPlus] ++ lits "pelo",
    lits "muito" ++ [Tok.wsPlus] ++ lits "obrigad" ++ [Tok.cls ['a', 'o']],
    lits "desejo" ++ [Tok.dotStar] ++ lits "feliz",
    lits "felicidades" ]

/-- The `urgentes` regex list of `_analisar_contexto_rapido`. -/
def urgentes_rapido : List (List Tok) :=
  [ lits "urgente",
    lits "cr" ++ [Tok.cls ['i', 'í']] ++ lits "tico",
    lits "emerg" ++ [Tok.cls ['ê', 'e']] ++ lits "ncia",
    lits "fora" ++ [Tok.wsPlus] ++ lits "do" ++ [Tok.wsPlus] ++ lits "ar",
    lits "n" ++ [Tok.cls ['a', 'ã']] ++ lits "o" ++ [Tok.wsPlus] ++ lits "funciona",
    lits "erro" ++ [Tok.wsPlus, Tok.digitPlus],
    lits "sistema" ++ [Tok.wsPlus] ++ lits "parou",
    lits "prioridade", lits "imediato", lits "bloqueado" ]

/-- Embedding of `_analisar_contexto_rapido`. -/
def analisar_contexto_rapido (texto_lower : String) : String :=
  if sociais_fortes_rapido.any (fun p => reSearch p texto_lower) then "social_forte"
  else if urgentes_rapido.any (fun p => reSearch p texto_lower) then "urgente"
  else "neutro"

/-- Embedding of `classificar_localmente_aprimorado`: the fast local
fallback invoked by the orchestrator `classificar_email`. -/
def classificar_localmente_aprimorado (texto : String) : String × ℚ :=
  let texto_lower := pyLower texto
  let contexto := analisar_contexto_rapido texto_lower
  if contexto = "social_forte" then ("Improdutivo", 0.92)
  else if contexto = "urgente" then ("Produtivo", 0.88)
  else
    let score_produtivo := calcular_score_produtivo texto_lower
    let score_improdutivo := calcular_score_improdutivo texto_lower
    let diferenca := score_produtivo - score_improdutivo
    if diferenca > 1.0 then
      ("Produtivo", round3 (min 0.95 (0.7 + diferenca * 0.1)))
    else if diferenca < -1.0 then
      ("Improdutivo", round3 (min 0.95 (0.7 + |diferenca| * 0.1)))
    else
      ("Produtivo", 0.65)

/-! ### The full local heuristic classifier (`classificar_localmente`)

`classificar_localmente` first lowercases its input and computes a
stemmed, stop word filtered form via `preprocessar_texto_avancado`, which
delegates tokenisation, stop words and stemming to the external NLTK
collaborator.  The embedding therefore takes the two normalised forms
`texto_limpo` (cleaned) and `texto_lower` (raw lowercase) as explicit
inputs and embeds everything downstream of the preprocessing. -/

/-- The `padroes_sociais_fortes` substring list of `_analisar_contexto_geral`. -/
def padroes_sociais_fortes : List String :=
  [ "parabenizar", "parabéns", "excelente", "maravilhoso", "perfeito",
    "feliz natal", "ano novo", "boas festas", "agradeço pelo", "obrigado pelo",
    "gostaria de parabenizar", "quero parabenizar", "muito obrigado", "muito obrigada" ]

/-- The `padroes_urgentes` substring list of `_analisar_contexto_geral`. -/
def padroes_urgentes : List String :=
  [ "urgente", "crítico", "emergência", "fora do ar", "não funciona",
    "erro 500", "erro 503", "sistema parou", "prioridade", "imediato" ]

/-- Embedding of `_analisar_contexto_geral` (first match wins). -/
def analisar_contexto_geral (texto_lower : String) : String :=
  if padroes_sociais_fortes.any (fun p => contemSub p texto_lower) then "social_forte"
  else if padroes_urgentes.any (fun p => contemSub p texto_lower) then "urgente"
  else "neutro"

/-- The request marker words of `_classificar_contexto_social`. -/
def palavras_solicitacao : List String :=
  ["preciso", "necessito", "ajuda", "problema", "erro", "bug", "falha"]

/-- Embedding of `_classificar_contexto_social`. -/
def classificar_contexto_social (texto_limpo : String) (_texto_lower : String) : String × ℚ :=
  if palavras_solicitacao.any (fun palavra => contemSub palavra texto_limpo) then
    ("Improdutivo", 0.7)
  else
    ("Improdutivo", 0.9)

/-- The weighted map `palavras_produtivas` (dict in insertion order). -/
def palavras_produtivas : List (String × ℚ) :=
  [ ("erro 500", 3.0), ("erro 503", 3.0), ("não funciona", 2.8), ("fora do ar", 2.8),
    ("bug", 2.5), ("falha", 2.5), ("quebrado", 2.5), ("parou", 2.5),
    ("preciso de ajuda", 2.5), ("necessito de ajuda", 2.5), ("problema", 2.0),
    ("não consigo", 2.0), ("como configurar", 1.8), ("dúvida", 1.5),
    ("solicitação", 1.8), ("requisição", 1.8), ("chamado", 1.5),
    ("configurar", 1.2), ("instalar", 1.2), ("integrar", 1.2), ("atualizar", 1.0) ]

/-- The weighted map `palavras_improdutivas` (dict in insertion order). -/
def palavras_improdutivas : List (String × ℚ) :=
  [ ("obrigado", 2.5), ("obrigada", 2.5), ("agradeço", 2.5), ("agradecimento", 2.0),
    ("muito obrigado", 3.0), ("muito obrigada", 3.0),
    ("parabéns", 3.0), ("parabenizar", 3.0), ("excelente", 2.5), ("maravilhoso", 2.5),
    ("perfeito", 2.5), ("incrível", 2.0), ("fantástico", 2.0), ("ótimo", 2.0),
    ("feliz natal", 3.0), ("ano novo", 2.8), ("boas festas", 2.5),
    ("cumprimentos", 1.5), ("saudações", 1.5), ("saudação", 1.2),
    ("gostei", 2.0), ("satisfeito", 2.0), ("content", 1.8), ("feliz", 1.5) ]

/-- The gratitude context list of `_esta_em_contexto_agradecimento`. -/
def contextos_agradecimento : List String :=
  [ "obrigado", "agradeço", "parabéns", "gostaria de agradecer",
    "quero agradecer", "excelente", "maravilhoso", "muito obrigado" ]

/-- Embedding of `_esta_em_contexto_agradecimento`: a productive keyword
is suppressed if a gratitude term occurs within its three token window. -/
def esta_em_contexto_agradecimento (palavra texto_lower : String) : Bool :=
  let palavras_vizinhas := pySplit texto_lower
  match palavras_vizinhas.findIdx? (fun w => w = palavra) with
  | none => false
  | some idx =>
      let lo := idx - 3
      let contexto_proximo :=
        String.intercalate " " ((palavras_vizinhas.drop lo).take (idx + 4 - lo))
      contextos_agradecimento.any
        (fun contexto => contemSub contexto contexto_proximo && contexto ≠ palavra)

/-- Embedding of `_analise_palavras_chave_contextual`. -/
def analise_palavras_chave_contextual (texto_limpo texto_lower : String) : ℚ × ℚ :=
  let score_produtivo := palavras_produtivas.foldl
    (fun acc pw =>
      if contemSub pw.1 texto_limpo && !(esta_em_contexto_agradecimento pw.1 texto_lower)
      then acc + pw.2 else acc) 0
  let score_improdutivo := palavras_improdutivas.foldl
    (fun acc pw => if contemSub pw.1 texto_limpo then acc + pw.2 else acc) 0
  (score_produtivo, score_improdutivo)

/-- Embedding of `_analise_padroes_linguisticos`. -/
def analise_padroes_linguisticos (texto : String) : ℚ × ℚ :=
  let texto_lower := pyLower texto
  let padroes_produtivo : ℚ := 0
  let padroes_improdutivo : ℚ := 0
  let padroes_produtivo :=
    if ["?", "como", "por que", "porque", "quando"].any (fun p => contemSub p texto_lower)
    then padroes_produtivo + 1.5 else padroes_produtivo
  let padroes_produtivo :=
    if ["preciso", "necessito", "urgente", "por favor"].any (fun p => contemSub p texto_lower)
    then padroes_produtivo + 1.2 else padroes_produtivo
  let padroes_produtivo :=
    if ["código", "log", "erro", "exceção", "configuração"].any (fun p => contemSub p texto_lower)
    then padroes_produtivo + 1.3 else padroes_produtivo
  let padroes_improdutivo :=
    if ["olá", "oi ", "bom dia", "boa tarde", "boa noite"].any (fun p => contemSub p texto_lower)
    then padroes_improdutivo + 0.5 else padroes_improdutivo
  let padroes_improdutivo :=
    if texto.data.count '!' > 2 then padroes_improdutivo + 0.8 else padroes_improdutivo
  let padroes_improdutivo :=
    if ["excelente", "maravilhoso", "perfeito", "incrível"].any (fun p => contemSub p texto_lower)
    then padroes_improdutivo + 1.0 else padroes_improdutivo
  (padroes_produtivo, padroes_improdutivo)

/-- Embedding of `_ajuste_final_contextual`. -/
def ajuste_final_contextual (texto_lower : String) (score_p score_i : ℚ) : ℚ × ℚ :=
  let score_i :=
    if contemSub "obrigado" texto_lower && contemSub "suporte" texto_lower
    then score_i + 2.0 else score_i
  let score_i :=
    if (["parabéns", "excelente"].any (fun e => contemSub e texto_lower)) &&
       contemSub "problema" texto_lower
    then score_i + 1.5 else score_i
  let palavras_positivas := ["obrigado", "parabéns", "excelente", "maravilhoso", "perfeito"]
  let count_positivas := (palavras_positivas.filter (fun p => contemSub p texto_lower)).length
  let score_i := if count_positivas ≥ 2 then score_i + 1.0 else score_i
  (score_p, score_i)

/-- Embedding of `_calcular_confianca_avancada`. -/
def calcular_confianca_avancada (score_p score_i : ℚ) : ℚ :=
  let diferenca := |score_p - score_i|
  let soma := score_p + score_i
  if soma = 0 then 0.6
  else
    let confianca_base := min 0.95 (diferenca / soma)
    let fator : ℚ := if diferenca > 3 then 0.15 else if diferenca > 1.5 then 0.08 else -0.1
    let confianca_ajustada := confianca_base + fator
    max 0.5 (min 0.98 confianca_ajustada)

/-- The final scores of `classificar_localmente` after keyword analysis,
linguistic pattern bonuses and the final contextual adjustment. -/
def scores_finais (texto_limpo texto_lower : String) : ℚ × ℚ :=
  let kw := analise_palavras_chave_contextual texto_limpo texto_lower
  let pd := analise_padroes_linguisticos texto_lower
  ajuste_final_contextual texto_lower (kw.1 + pd.1) (kw.2 + pd.2)

/-- Embedding of `classificar_localmente`, downstream of the external
NLTK preprocessing: `texto_limpo` is `preprocessar_texto_avancado(texto)`
and `texto_lower` is `texto.lower()`. -/
def classificar_localmente (texto_limpo texto_lower : String) : String × ℚ :=
  if analisar_contexto_geral texto_lower = "social_forte" then
    classificar_contexto_social texto_limpo texto_lower
  else
    let totais := scores_finais texto_limpo texto_lower
    let confianca := calcular_confianca_avancada totais.1 totais.2
    if totais.1 > totais.2 then
      ("Produtivo", round3 (max 0.55 (min 0.98 confianca)))
    else
      ("Improdutivo", round3 (max 0.55 (min 0.98 confianca)))

/-! ### The remote classifier adapter (`classificar_com_huggingface`)

Network transport is external: the embedding receives, for each
configured model in order, the optional decoded JSON body
`(labels, scores)` of a successful HTTP exchange (`none` models any
raised exception, a missing `labels`/`scores` key, or both retries
failing).  Everything the code does with the decoded body is embedded. -/

/-- The ordered model list hardcoded in `classificar_com_huggingface`. -/
def modelos : List String :=
  [ "facebook/bart-large-mnli",
    "joeddav/xlm-roberta-large-xnli",
    "typeform/distilbert-base-uncased-mnli" ]

/-- Python `max(scores)` (caller guarantees nonempty). -/
def maxVal : List ℚ → ℚ
  | [] => 0
  | [x] => x
  | x :: y :: xs => max x (maxVal (y :: xs))

/-- Python `scores.index(max(scores))`: first index attaining the maximum. -/
def idxDoMaximo (scores : List ℚ) : ℕ :=
  scores.findIdx (fun s => s = maxVal scores)

/-- One loop iteration of `classificar_com_huggingface`: what the code
does with one model's decoded response.  `none` means this model is
skipped (its `except` / missing key paths). -/
def processar_modelo (modelo : String) :
    Option (List String × List ℚ) → Option (String × ℚ)
  | none => none
  | some (labels, scores) =>
    if scores.isEmpty then none
    else
      let best_idx := idxDoMaximo scores
      match labels.get? best_idx with
      | none => none
      | some categoria =>
        let confianca := scores.getD best_idx 0
        let categoria_final := if categoria = "produtivo" then "Produtivo" else "Improdutivo"
        let confianca := if contemSub "distilbert" modelo then confianca * 0.95 else confianca
        some (categoria_final, round3 confianca)

/-- The model loop: the first model that yields a result wins; if all
fail the function raises (`none`). -/
def tentar_modelos : List (String × Option (List String × List ℚ)) → Option (String × ℚ)
  | [] => none
  | (modelo, resp) :: resto =>
    match processar_modelo modelo resp with
    | some r => some r
    | none => tentar_modelos resto

/-- Embedding of `classificar_com_huggingface`; `respostas` are the
decoded responses aligned with `modelos`. -/
def classificar_com_huggingface
    (respostas : List (Option (List String × List ℚ))) : Option (String × ℚ) :=
  tentar_modelos (modelos.zip respostas)

/-! ### Configuration and the orchestrator (`classificar_email`) -/

/-- The configuration fields of `Config.__init__` relevant to the engine. -/
structure Config where
  ENABLE_HUGGINGFACE : Bool
  FALLBACK_TO_LOCAL : Bool
  deriving DecidableEq

/-- Embedding of the orchestrator `classificar_email`.  The second
component of the result records whether `classificar_com_huggingface`
(the network tier) was invoked.  Note that the body never consults
`cfg`: the Python method reads nothing from `self.config`. -/
def classificar_email (_cfg : Config)
    (respostas : List (Option (List String × List ℚ))) (texto : String) :
    (String × ℚ) × Bool :=
  if texto.length = 0 ∨ texto.trim.length < 10 then
    (("Improdutivo", 0.6), false)
  else
    match classificar_com_huggingface respostas with
    | some r => (r, true)
    | none => (classificar_localmente_aprimorado texto, true)

/-! ### The classification history ring buffer -/

/-- One entry of `classification_history`. -/
structure EntradaHistorico where
  timestamp : ℚ
  metodo : String
  categoria : String
  confianca : ℚ
  deriving DecidableEq

/-- Embedding of `_registrar_classificacao`: append, then `pop(0)` when
the buffer exceeds 100 entries. -/
def registrar_classificacao
    (history : List EntradaHistorico) (e : EntradaHistorico) : List EntradaHistorico :=
  let history := history ++ [e]
  if history.length > 100 then history.drop 1 else history

/-! ### The templated response generator (`gerar_resposta_inteligente`)

Python `hash` is salted per process but fixed within one; `hashVal`
stands for the value `hash(texto_lower)` of the current process.
`random.randint(1000, 9999)` draws a fresh value per call; `ticket`
stands for that draw. -/

def lbrace : Char := Char.ofNat 123

def rbrace : Char := Char.ofNat 125

/-- Embedding of Python `template.format(arg)` for the single optional
positional placeholder occurring in the template bank. -/
def formatAux : List Char → List Char → List Char
  | [], _ => []
  | [c], _ => [c]
  | c :: d :: resto, a =>
    if c = lbrace ∧ d = rbrace then a ++ resto
    else c :: formatAux (d :: resto) a

/-- Embedding of Python `template.format(ticket_id)`. -/
def pyFormat (template : String) (arg : String) : String :=
  ⟨formatAux template.data arg.data⟩

/-- The fallback bank of `_gerar_resposta_produtiva`; template 0 carries
the ticket number placeholder. -/
def respostas_produtivas_banco : List String :=
  [ "✅ **Solicitação recebida** - Confirmamos o recebimento de sua requisição. Ticket #\x7b\x7d criado com sucesso.",
    "📋 **Em análise** - Sua solicitação está sendo processada por nossa equipe. Retornaremos em até 2 horas úteis.",
    "👨‍💻 **Em atendimento** - Já iniciamos a análise do seu caso. Você receberá atualizações em breve." ]

/-- The early, high confidence keyword branch of `_gerar_resposta_produtiva`:
true exactly when the function returns before reaching the template bank. -/
def resposta_produtiva_contextual (texto_lower : String) (confianca : ℚ) : Bool :=
  decide (confianca > 0.8) &&
    (["erro", "bug", "não funciona", "fora do ar"].any (fun w => contemSub w texto_lower) ||
     ["dúvida", "como fazer", "configurar"].any (fun w => contemSub w texto_lower) ||
     ["urgente", "prioridade", "crítico"].any (fun w => contemSub w texto_lower))

/-- Embedding of `_gerar_resposta_produtiva`. -/
def gerar_resposta_produtiva
    (texto_lower : String) (confianca : ℚ) (hashVal ticket : ℕ) : String :=
  if confianca > 0.8 then
    if ["erro", "bug", "não funciona", "fora do ar"].any (fun w => contemSub w texto_lower) then
      "🔧 **Problema identificado** - Nossa equipe técnica já está analisando esta falha. Você receberá uma atualização em até 1 hora útil."
    else if ["dúvida", "como fazer", "configurar"].any (fun w => contemSub w texto_lower) then
      "💡 **Consulta recebida** - Nossa equipe especializada está preparando um guia detalhado para sua dúvida. Retornaremos em breve."
    else if ["urgente", "prioridade", "crítico"].any (fun w => contemSub w texto_lower) then
      "🚨 **Caso prioritário** - Sua solicitação foi marcada como urgente. Atualizações em até 30 minutos."
    else
      pyFormat (respostas_produtivas_banco.getD (hashVal % 3) "") (toString ticket)
  else
    pyFormat (respostas_produtivas_banco.getD (hashVal % 3) "") (toString ticket)

/-- The fallback bank of `_gerar_resposta_improdutiva`. -/
def respostas_improdutivas_banco : List String :=
  [ "💌 **Mensagem recebida** - Agradecemos seu contato! Desejamos um excelente dia.",
    "🙏 **Agradecemos** - Sua mensagem foi recebida com alegria. Estamos sempre à disposição!",
    "😊 **Obrigado!** - Valorizamos muito sua interação conosco. Tenha um ótimo dia!" ]

/-- Embedding of `_gerar_resposta_improdutiva`. -/
def gerar_resposta_improdutiva
    (texto_lower : String) (confianca : ℚ) (hashVal : ℕ) : String :=
  if confianca > 0.85 then
    if ["natal", "ano novo", "festas"].any (fun w => contemSub w texto_lower) then
      "🎄 **Agradecemos as felicitações!** Retribuímos os votos de um feliz natal e um ano novo repleto de conquistas para você e toda equipe!"
    else if ["parabéns", "elogio", "excelente"].any (fun w => contemSub w texto_lower) then
      "⭐ **Muito obrigado pelo reconhecimento!** Sua satisfação é nossa maior motivação para continuar evoluindo."
    else
      respostas_improdutivas_banco.getD (hashVal % 3) ""
  else
    respostas_improdutivas_banco.getD (hashVal % 3) ""

/-- Embedding of `gerar_resposta_inteligente`, the templated generator
used by `EmailService.processar_email`. -/
def gerar_resposta_inteligente
    (categoria texto_original : String) (confianca : ℚ) (hashVal ticket : ℕ) : String :=
  let texto_lower := pyLower texto_original
  if categoria = "Produtivo" then
    gerar_resposta_produtiva texto_lower confianca hashVal ticket
  else
    gerar_resposta_improdutiva texto_lower confianca hashVal

/-! ### The batch processor (`EmailService.processar_lote`) -/

/-- The per item record appended to `resultados` (success records come
from `EmailResponse.to_dict`, abstracted by the item processor). -/
structure RegistroLote where
  categoria : String
  confianca : ℚ
  resposta_sugerida : String
  texto_processado : String
  erro : Option String
  deriving DecidableEq

/-- The error record built inline in the `except` branch of
`processar_lote`. -/
def registro_erro (msg texto : String) : RegistroLote :=
  { erro := some msg
    texto_processado :=
      if texto.length > 150 then texto.take 150 ++ "..." else texto
    categoria := "ERRO"
    confianca := 0.0
    resposta_sugerida := "Não foi possível processar este email." }

/-- Embedding of `processar_lote`.  `proc` abstracts the body of the
`try` block (`EmailRequest` validation plus `processar_email`), returning
the success record or the raised exception message.  After the loop the
final log line computes `tempo_total/len(emails)`, which raises
`ZeroDivisionError` when the batch is empty, so the function as a whole
returns `Except`. -/
def processar_lote (proc : String → Except String RegistroLote)
    (emails : List String) : Except String (List RegistroLote) :=
  let resultados := emails.map (fun email_texto =>
    match proc email_texto with
    | .ok resultado => resultado
    | .error e => registro_erro e email_texto)
  if emails.length = 0 then .error "ZeroDivisionError" else .ok resultados

/-! ### EmailService metrics (`_atualizar_metricas`, `obter_metricas`) -/

/-- The category enumeration of `email_model.CategoriaEmail`. -/
inductive CategoriaEmail where
  | PRODUTIVO
  | IMPRODUTIVO
  deriving DecidableEq

/-- The `self.metrics` dictionary of `EmailService`. -/
structure Metricas where
  total_emails_processados : ℕ
  emails_produtivos : ℕ
  emails_improdutivos : ℕ
  tempo_medio_processamento : ℚ
  deriving DecidableEq

/-- The all zero metrics state installed by `EmailService.__init__`. -/
def metricas_iniciais : Metricas :=
  { total_emails_processados := 0
    emails_produtivos := 0
    emails_improdutivos := 0
    tempo_medio_processamento := 0 }

/-- Embedding of `_atualizar_metricas`. -/
def atualizar_metricas (m : Metricas) (categoria : CategoriaEmail)
    (tempo_processamento : ℚ) : Metricas :=
  let total := m.total_emails_processados + 1
  let produtivos :=
    if categoria = CategoriaEmail.PRODUTIVO then m.emails_produtivos + 1
    else m.emails_produtivos
  let improdutivos :=
    if categoria = CategoriaEmail.PRODUTIVO then m.emails_improdutivos
    else m.emails_improdutivos + 1
  let total_tempo := m.tempo_medio_processamento * ((total : ℚ) - 1)
  { total_emails_processados := total
    emails_produtivos := produtivos
    emails_improdutivos := improdutivos
    tempo_medio_processamento := (total_tempo + tempo_processamento) / (total : ℚ) }

/-- The derived ratio reported by `obter_metricas`. -/
def taxa_sucesso_produtivo (m : Metricas) : ℚ :=
  if m.total_emails_processados > 0 then
    (m.emails_produtivos : ℚ) / (m.total_emails_processados : ℚ)
  else 0

/-! ### Helper lemmas: score granularity and rounding -/

/-- `q` is an integer multiple of `1/k`. -/
def MultDe (k : ℚ) (q : ℚ) : Prop := ∃ n : ℤ, q = n / k

theorem multDe_add {k a b : ℚ} (ha : MultDe k a) (hb : MultDe k b) :
    MultDe k (a + b) := by
  obtain ⟨n, hn⟩ := ha
  obtain ⟨m, hm⟩ := hb
  exact ⟨n + m, by rw [hn, hm]; push_cast; ring⟩

theorem multDe_sub {k a b : ℚ} (ha : MultDe k a) (hb : MultDe k b) :
    MultDe k (a - b) := by
  obtain ⟨n, hn⟩ := ha
  obtain ⟨m, hm⟩ := hb
  exact ⟨n - m, by rw [hn, hm]; push_cast; ring⟩

theorem multDe_abs {a : ℚ} (ha : MultDe 10 a) : MultDe 10 |a| := by
  obtain ⟨n, hn⟩ := ha
  refine ⟨|n|, ?_⟩
  rw [hn, abs_div, Int.cast_abs]
  norm_num

theorem multDe_if {k : ℚ} {c : Prop} [Decidable c] {a b : ℚ}
    (ha : MultDe k a) (hb : MultDe k b) : MultDe k (if c then a else b) := by
  split
  · exact ha
  · exact hb

theorem multDe_somarPadroes (t : String) :
    ∀ (l : List (List Tok × ℚ)) (acc : ℚ),
      (∀ pw ∈ l, MultDe 10 pw.2) → MultDe 10 acc → MultDe 10 (somarPadroes t l acc) := by
  intro l
  induction l with
  | nil => intro acc _ ha; exact ha
  | cons p l ih =>
    intro acc hl ha
    have hstep : MultDe 10 (if reSearch p.1 t then acc + p.2 else acc) := by
      split
      · exact multDe_add ha (hl p (List.mem_cons_self p l))
      · exact ha
    have := ih _ (fun pw hpw => hl pw (List.mem_cons_of_mem p hpw)) hstep
    simpa [somarPadroes, List.foldl_cons] using this

theorem pesos_problemas : ∀ pw ∈ problemas, MultDe 10 pw.2 := by
  intro pw h
  fin_cases h
  exacts [⟨30, by norm_num⟩, ⟨28, by norm_num⟩, ⟨28, by norm_num⟩, ⟨25, by norm_num⟩,
    ⟨25, by norm_num⟩, ⟨25, by norm_num⟩, ⟨25, by norm_num⟩, ⟨20, by norm_num⟩,
    ⟨18, by norm_num⟩, ⟨20, by norm_num⟩]

theorem pesos_solicitacoes : ∀ pw ∈ solicitacoes, MultDe 10 pw.2 := by
  intro pw h
  fin_cases h
  exacts [⟨20, by norm_num⟩, ⟨20, by norm_num⟩, ⟨18, by norm_num⟩, ⟨18, by norm_num⟩,
    ⟨15, by norm_num⟩, ⟨15, by norm_num⟩, ⟨18, by norm_num⟩, ⟨18, by norm_num⟩]

theorem pesos_agradecimentos : ∀ pw ∈ agradecimentos, MultDe 10 pw.2 := by
  intro pw h
  fin_cases h
  exacts [⟨30, by norm_num⟩, ⟨28, by norm_num⟩, ⟨25, by norm_num⟩, ⟨20, by norm_num⟩]

theorem pesos_elogios : ∀ pw ∈ elogios, MultDe 10 pw.2 := by
  intro pw h
  fin_cases h
  exacts [⟨30, by norm_num⟩, ⟨25, by norm_num⟩, ⟨25, by norm_num⟩, ⟨25, by norm_num⟩,
    ⟨20, by norm_num⟩, ⟨20, by norm_num⟩]

theorem pesos_festas : ∀ pw ∈ festas, MultDe 10 pw.2 := by
  intro pw h
  fin_cases h
  exacts [⟨30, by norm_num⟩, ⟨28, by norm_num⟩, ⟨25, by norm_num⟩, ⟨15, by norm_num⟩,
    ⟨15, by norm_num⟩]

theorem multDe_score_produtivo (t : String) : MultDe 10 (calcular_score_produtivo t) := by
  have h2 : MultDe 10 (somarPadroes t solicitacoes (somarPadroes t problemas 0)) :=
    multDe_somarPadroes t solicitacoes _ pesos_solicitacoes
      (multDe_somarPadroes t problemas 0 pesos_problemas ⟨0, by norm_num⟩)
  have hif : MultDe 10 (if contemSub "?" t then
      somarPadroes t solicitacoes (somarPadroes t problemas 0) + 1.0
      else somarPadroes t solicitacoes (somarPadroes t problemas 0)) :=
    multDe_if (multDe_add h2 ⟨10, by norm_num⟩) h2
  simp only [calcular_score_produtivo]
  exact multDe_if (multDe_add hif ⟨12, by norm_num⟩) hif

theorem multDe_score_improdutivo (t : String) : MultDe 10 (calcular_score_improdutivo t) := by
  simp only [calcular_score_improdutivo]
  exact multDe_somarPadroes t festas _ pesos_festas
    (multDe_somarPadroes t elogios _ pesos_elogios
      (multDe_somarPadroes t agradecimentos 0 pesos_agradecimentos ⟨0, by norm_num⟩))

/-- The confidences of the margin branches of the fast fallback are exact
multiples of `1/100`, so `round(x, 3)` leaves them unchanged. -/
theorem round3_min95 {d : ℚ} (hd : MultDe 10 d) :
    round3 (min 0.95 (0.7 + d * 0.1)) = min 0.95 (0.7 + d * 0.1) := by
  obtain ⟨n, hn⟩ := hd
  have h1 : (0.7 : ℚ) + d * 0.1 = ((70 + n : ℤ) : ℚ) / 100 := by
    rw [hn]; push_cast; ring
  have h2 : (0.95 : ℚ) = ((95 : ℤ) : ℚ) / 100 := by norm_num
  rw [h1, h2, min_div_div_right (by norm_num : (0 : ℚ) ≤ 100), ← Int.cast_min,
    round3_centesimo]

/-- Case analysis of `classificar_localmente_aprimorado`, with the
rounding shown to be the identity on every reachable confidence. -/
theorem aprimorado_caracterizacao (texto : String) :
    classificar_localmente_aprimorado texto =
      (if analisar_contexto_rapido (pyLower texto) = "social_forte" then
        ("Improdutivo", (0.92 : ℚ))
       else if analisar_contexto_rapido (pyLower texto) = "urgente" then
        ("Produtivo", (0.88 : ℚ))
       else if calcular_score_produtivo (pyLower texto) -
           calcular_score_improdutivo (pyLower texto) > 1.0 then
        ("Produtivo", min 0.95 (0.7 + (calcular_score_produtivo (pyLower texto) -
          calcular_score_improdutivo (pyLower texto)) * 0.1))
       else if calcular_score_produtivo (pyLower texto) -
           calcular_score_improdutivo (pyLower texto) < -1.0 then
        ("Improdutivo", min 0.95 (0.7 + |calcular_score_produtivo (pyLower texto) -
          calcular_score_improdutivo (pyLower texto)| * 0.1))
       else ("Produtivo", (0.65 : ℚ))) := by
  have hd : MultDe 10 (calcular_score_produtivo (pyLower texto) -
      calcular_score_improdutivo (pyLower texto)) :=
    multDe_sub (multDe_score_produtivo _) (multDe_score_improdutivo _)
  by_cases h1 : analisar_contexto_rapido (pyLower texto) = "social_forte"
  · simp [classificar_localmente_aprimorado, h1]
  · by_cases h2 : analisar_contexto_rapido (pyLower texto) = "urgente"
    · simp [classificar_localmente_aprimorado, h1, h2]
    · by_cases h3 : calcular_score_produtivo (pyLower texto) -
          calcular_score_improdutivo (pyLower texto) > 1.0
      · simp [classificar_localmente_aprimorado, h1, h2, h3, round3_min95 hd]
      · by_cases h4 : calcular_score_produtivo (pyLower texto) -
            calcular_score_improdutivo (pyLower texto) < -1.0
        · simp [classificar_localmente_aprimorado, h1, h2, h3, h4,
            round3_min95 (multDe_abs hd)]
        · simp [classificar_localmente_aprimorado, h1, h2, h3, h4]

/-! ### Further helper lemmas shared by the claims -/

theorem aprimorado_categoria (t : String) :
    (classificar_localmente_aprimorado t).1 = "Produtivo" ∨
    (classificar_localmente_aprimorado t).1 = "Improdutivo" := by
  rw [aprimorado_caracterizacao]
  split_ifs <;> simp

theorem aprimorado_confianca_limites (t : String) :
    1/2 ≤ (classificar_localmente_aprimorado t).2 ∧
    (classificar_localmente_aprimorado t).2 ≤ 98/100 := by
  rw [aprimorado_caracterizacao]
  split_ifs with h1 h2 h3 h4
  · constructor <;> norm_num
  · constructor <;> norm_num
  · constructor
    · exact le_min (by norm_num) (by nlinarith)
    · exact le_trans (min_le_left _ _) (by norm_num)
  · constructor
    · have : (0 : ℚ) ≤ |calcular_score_produtivo (pyLower t) -
          calcular_score_improdutivo (pyLower t)| := abs_nonneg _
      exact le_min (by norm_num) (by nlinarith)
    · exact le_trans (min_le_left _ _) (by norm_num)
  · constructor <;> norm_num

theorem processar_modelo_categoria (m : String) (resp : Option (List String × List ℚ))
    (r : String × ℚ) (h : processar_modelo m resp = some r) :
    r.1 = "Produtivo" ∨ r.1 = "Improdutivo" := by
  unfold processar_modelo at h
  cases resp with
  | none => exact absurd h (by simp)
  | some lr =>
    obtain ⟨labels, scores⟩ := lr
    simp only at h
    split at h
    · exact absurd h (by simp)
    · split at h
      · exact absurd h (by simp)
      · injection h with h2
        subst h2
        split
        · left; rfl
        · right; rfl

theorem tentar_modelos_categoria :
    ∀ (l : List (String × Option (List String × List ℚ))) (r : String × ℚ),
      tentar_modelos l = some r → r.1 = "Produtivo" ∨ r.1 = "Improdutivo" := by
  intro l
  induction l with
  | nil => intro r h; exact absurd h (by simp [tentar_modelos])
  | cons p resto ih =>
    intro r h
    obtain ⟨modelo, resp⟩ := p
    unfold tentar_modelos at h
    cases hp : processar_modelo modelo resp with
    | some r2 =>
      rw [hp] at h
      injection h with h2
      subst h2
      exact processar_modelo_categoria modelo resp r2 hp
    | none =>
      rw [hp] at h
      exact ih r h

/-- Absorption of the inner `[0.5, 0.98]` clamp of
`_calcular_confianca_avancada` by the caller clamp `[0.55, 0.98]`. -/
theorem clamp_absorcao (x : ℚ) :
    max 0.55 (min 0.98 (max 0.5 (min 0.98 x))) = max 0.55 (min 0.98 x) := by
  simp only [min_def, max_def]
  split_ifs <;> first | rfl | linarith

/-- The confidence derivation exactly as the specification words it
(base, margin adjustments, outer clamp by the caller): refinement target
compared against `calcular_confianca_avancada`, which additionally clamps
to `[0.5, 0.98]` before `classificar_localmente` clamps to `[0.55, 0.98]`. -/
def confianca_espec (score_p score_i : ℚ) : ℚ :=
  if score_p + score_i = 0 then 0.6
  else
    min 0.95 (|score_p - score_i| / (score_p + score_i)) +
      (if |score_p - score_i| > 3 then 0.15
       else if |score_p - score_i| > 1.5 then 0.08 else -0.1)

/-! ### The claims -/

/-- C1 (counterexample): on the neutral input `"xyzw"` the full scoring
pipeline runs, the two final scores are equal, and the category resolves
to Improdutivo, not Produtivo: ties do not resolve to Productive. -/
theorem local_empate_improdutivo :
    analisar_contexto_geral "xyzw" ≠ "social_forte" ∧
    (scores_finais "xyzw" "xyzw").1 = (scores_finais "xyzw" "xyzw").2 ∧
    (classificar_localmente "xyzw" "xyzw").1 ≠ "Produtivo" ∧
    (classificar_localmente "xyzw" "xyzw").1 = "Improdutivo" := by
  with_unfolding_all decide

/-- C1 (amended): whenever `classificar_localmente` runs the full scoring
pipeline (no strong social short circuit), the category is Produtivo if
and only if the final productive score strictly exceeds the final
unproductive score; in particular a tie resolves to Improdutivo. -/
theorem classificacao_local_decisao (texto_limpo texto_lower : String)
    (h : analisar_contexto_geral texto_lower ≠ "social_forte") :
    (classificar_localmente texto_limpo texto_lower).1 = "Produtivo" ↔
      (scores_finais texto_limpo texto_lower).1 >
        (scores_finais texto_limpo texto_lower).2 := by
  simp only [classificar_localmente, if_neg h]
  split
  · rename_i hgt
    simpa using hgt
  · rename_i hng
    constructor
    · intro habs
      simp at habs
    · intro hgt
      exact absurd hgt hng

/-- C1 (witness): the amended decision rule evaluated on a concrete
request bearing input. -/
theorem classificacao_local_decisao_witness :
    analisar_contexto_geral "preciso de ajuda" ≠ "social_forte" ∧
    ((classificar_localmente "preciso de ajuda" "preciso de ajuda").1 = "Produtivo" ↔
      (scores_finais "preciso de ajuda" "preciso de ajuda").1 >
        (scores_finais "preciso de ajuda" "preciso de ajuda").2) :=
  ⟨by decide, classificacao_local_decisao "preciso de ajuda" "preciso de ajuda" (by decide)⟩

/-- C2 (code evaluated at the failing input): with
`ENABLE_HUGGINGFACE = false` and a valid input text, the orchestrator
`classificar_email` still invokes the remote tier — its body never
consults the configuration flag. -/
theorem remoto_tentado_com_huggingface_desligado :
    (⟨false, true⟩ : Config).ENABLE_HUGGINGFACE = false ∧
    (classificar_email ⟨false, true⟩ [none, none, none]
      "Sistema fora do ar, preciso de ajuda").2 = true := by
  constructor
  · rfl
  · with_unfolding_all decide

/-- C4: a strong social match in the context pre-filter short circuits
`classificar_localmente`: Improdutivo at exactly 0.7 when a request
marker word occurs in the cleaned text, else Improdutivo at exactly 0.9. -/
theorem contexto_social_curto_circuito (texto_limpo texto_lower : String)
    (h : analisar_contexto_geral texto_lower = "social_forte") :
    classificar_localmente texto_limpo texto_lower =
      (if ["preciso", "necessito", "ajuda", "problema", "erro", "bug", "falha"].any
          (fun palavra => contemSub palavra texto_limpo)
       then ("Improdutivo", (0.7 : ℚ))
       else ("Improdutivo", (0.9 : ℚ))) := by
  simp only [classificar_localmente, if_pos h, classificar_contexto_social,
    palavras_solicitacao]

/-- C4 (witness): the short circuit evaluated on the pure courtesy text
`"feliz natal"`, giving confidence exactly 0.9. -/
theorem contexto_social_curto_circuito_witness :
    analisar_contexto_geral "feliz natal" = "social_forte" ∧
    classificar_localmente "feliz natal" "feliz natal" = ("Improdutivo", (0.9 : ℚ)) := by
  refine ⟨by decide, ?_⟩
  rw [contexto_social_curto_circuito "feliz natal" "feliz natal" (by decide)]
  with_unfolding_all decide

/-- C6: the confidence returned by `classificar_localmente` on the full
scoring path equals the spec formula (0.6 on zero total, otherwise
`min(0.95, margin/total)` with the +0.15, +0.08, -0.1 adjustments) clamped
to `[0.55, 0.98]` — the inner `[0.5, 0.98]` clamp of
`_calcular_confianca_avancada` is absorbed by the caller clamp. -/
theorem confianca_local_formula (texto_limpo texto_lower : String)
    (h : analisar_contexto_geral texto_lower ≠ "social_forte") :
    (classificar_localmente texto_limpo texto_lower).2 =
      round3 (max 0.55 (min 0.98 (confianca_espec
        (scores_finais texto_limpo texto_lower).1
        (scores_finais texto_limpo texto_lower).2))) := by
  have key : ∀ score_p score_i : ℚ,
      max 0.55 (min 0.98 (calcular_confianca_avancada score_p score_i)) =
        max 0.55 (min 0.98 (confianca_espec score_p score_i)) := by
    intro score_p score_i
    simp only [calcular_confianca_avancada, confianca_espec]
    by_cases hs : score_p + score_i = 0
    · simp only [if_pos hs]
    · simp only [if_neg hs]
      exact clamp_absorcao _
  simp only [classificar_localmente, if_neg h]
  split
  · simp only [key]
  · simp only [key]

/-- C6 (witness): the confidence formula evaluated on the concrete input
`"bug"`. -/
theorem confianca_local_formula_witness :
    analisar_contexto_geral "bug" ≠ "social_forte" ∧
    (classificar_localmente "bug" "bug").2 =
      round3 (max 0.55 (min 0.98 (confianca_espec
        (scores_finais "bug" "bug").1 (scores_finais "bug" "bug").2))) :=
  ⟨by decide, confianca_local_formula "bug" "bug" (by decide)⟩

/-- C7: exhaustive case description of the orchestrator's fast local
fallback: strong social regex match gives Improdutivo/0.92, else urgent
regex match gives Produtivo/0.88, else margin Δ > 1 gives Produtivo at
`min(0.95, 0.7 + 0.1 Δ)`, Δ < -1 gives Improdutivo at
`min(0.95, 0.7 + 0.1 |Δ|)`, and every near tie |Δ| ≤ 1 gives
Produtivo/0.65. -/
theorem fallback_rapido_casos (texto : String) :
    classificar_localmente_aprimorado texto =
      (if analisar_contexto_rapido (pyLower texto) = "social_forte" then
        ("Improdutivo", (0.92 : ℚ))
       else if analisar_contexto_rapido (pyLower texto) = "urgente" then
        ("Produtivo", (0.88 : ℚ))
       else if calcular_score_produtivo (pyLower texto) -
           calcular_score_improdutivo (pyLower texto) > 1.0 then
        ("Produtivo", min 0.95 (0.7 + (calcular_score_produtivo (pyLower texto) -
          calcular_score_improdutivo (pyLower texto)) * 0.1))
       else if calcular_score_produtivo (pyLower texto) -
           calcular_score_improdutivo (pyLower texto) < -1.0 then
        ("Improdutivo", min 0.95 (0.7 + |calcular_score_produtivo (pyLower texto) -
          calcular_score_improdutivo (pyLower texto)| * 0.1))
       else ("Produtivo", (0.65 : ℚ))) :=
  aprimorado_caracterizacao texto

/-- C5 (counterexample): on a valid text with a remote response scoring
the `produtivo` label at 1.0, `classificar_email` returns confidence 1,
outside `[0.5, 0.98]`: the remote success path passes the model score
through without clamping. -/
theorem classificar_email_confianca_fora_do_intervalo :
    10 ≤ ("Sistema quebrado, preciso de ajuda" : String).trim.length ∧
    classificar_com_huggingface [some (["produtivo", "improdutivo"], [1, 0])] =
      some ("Produtivo", 1) ∧
    (classificar_email ⟨true, true⟩ [some (["produtivo", "improdutivo"], [1, 0])]
      "Sistema quebrado, preciso de ajuda").1.2 = 1 ∧
    ¬((classificar_email ⟨true, true⟩ [some (["produtivo", "improdutivo"], [1, 0])]
      "Sistema quebrado, preciso de ajuda").1.2 ≤ 98/100) := by
  with_unfolding_all decide

/-- C5 (amended): for every valid text (at least 10 characters after
trimming) the orchestrator returns a category in
{Produtivo, Improdutivo} on every path, and on the local fallback path
(all remote models failed) the confidence lies in `[0.5, 0.98]`; on the
remote success path the confidence is the remote score (calibrated by
0.95 for the distilbert model and rounded), passed through unclamped. -/
theorem classificar_email_intervalo (cfg : Config)
    (respostas : List (Option (List String × List ℚ))) (texto : String)
    (h : 10 ≤ texto.trim.length) :
    ((classificar_email cfg respostas texto).1.1 = "Produtivo" ∨
     (classificar_email cfg respostas texto).1.1 = "Improdutivo") ∧
    (classificar_com_huggingface respostas = none →
      1/2 ≤ (classificar_email cfg respostas texto).1.2 ∧
      (classificar_email cfg respostas texto).1.2 ≤ 98/100) := by
  have hcond : ¬(texto.length = 0 ∨ texto.trim.length < 10) := by
    rintro (h0 | hlt)
    · obtain ⟨data⟩ := texto
      have hdata : data = [] := List.length_eq_zero.mp h0
      subst hdata
      have hz : (String.trim { data := [] }).length = 0 := by
        with_unfolding_all decide
      omega
    · omega
  simp only [classificar_email, if_neg hcond]
  cases hc : classificar_com_huggingface respostas with
  | some r =>
    constructor
    · exact tentar_modelos_categoria _ r hc
    · intro hnone
      exact absurd hnone (by simp)
  | none =>
    constructor
    · exact aprimorado_categoria texto
    · intro _
      exact aprimorado_confianca_limites texto

/-- C5 (witness): the amended bounds evaluated at a concrete valid text
with every remote model failing. -/
theorem classificar_email_intervalo_witness :
    10 ≤ ("Sistema fora do ar agora" : String).trim.length ∧
    (((classificar_email ⟨true, true⟩ [] "Sistema fora do ar agora").1.1 = "Produtivo" ∨
      (classificar_email ⟨true, true⟩ [] "Sistema fora do ar agora").1.1 = "Improdutivo") ∧
     (classificar_com_huggingface [] = none →
       1/2 ≤ (classificar_email ⟨true, true⟩ [] "Sistema fora do ar agora").1.2 ∧
       (classificar_email ⟨true, true⟩ [] "Sistema fora do ar agora").1.2 ≤ 98/100)) :=
  ⟨by with_unfolding_all decide,
   classificar_email_intervalo ⟨true, true⟩ [] "Sistema fora do ar agora"
     (by with_unfolding_all decide)⟩

/-! ### The response generator claims -/

theorem formatAux_sem_chave (a : List Char) :
    ∀ (l : List Char), lbrace ∉ l → formatAux l a = l := by
  intro l
  induction l with
  | nil => intro _; rfl
  | cons c resto ih =>
    intro hmem
    cases resto with
    | nil => rfl
    | cons d resto2 =>
      have hc : c ≠ lbrace := fun hcc => hmem (hcc ▸ List.mem_cons_self c _)
      have hrec : lbrace ∉ d :: resto2 := fun hd => hmem (List.mem_cons_of_mem c hd)
      have hand : ¬(c = lbrace ∧ d = rbrace) := fun hand2 => hc hand2.1
      rw [show formatAux (c :: d :: resto2) a =
            (if c = lbrace ∧ d = rbrace then a ++ resto2
             else c :: formatAux (d :: resto2) a) from rfl,
        if_neg hand, ih hrec]

/-- The two ticket free templates of the Produtivo bank are unchanged by
`format`. -/
theorem banco_produtivo_sem_ticket {hashVal : ℕ} (hr : hashVal % 3 ≠ 0)
    (a b : String) :
    pyFormat (respostas_produtivas_banco.getD (hashVal % 3) "") a =
      pyFormat (respostas_produtivas_banco.getD (hashVal % 3) "") b := by
  have h3 : hashVal % 3 = 1 ∨ hashVal % 3 = 2 := by omega
  rcases h3 with h | h <;>
    rw [h] <;>
    · unfold pyFormat
      rw [formatAux_sem_chave _ _ (by decide), formatAux_sem_chave _ _ (by decide)]

/-- C3 (counterexample): with the same category, text, confidence and
process hash, two calls of the templated Produtivo generator that draw
different random ticket numbers return different reply strings: the
random token breaks determinism. -/
theorem resposta_produtiva_usa_aleatorio :
    gerar_resposta_inteligente "Produtivo" "olá" 0.5 0 1000 ≠
      gerar_resposta_inteligente "Produtivo" "olá" 0.5 0 1001 := by
  with_unfolding_all decide

/-- C3 (amended): the templated generator is a pure function of
(category, lowercase text, confidence, process hash) — independent of the
random draw — except on the one Produtivo bank path whose selected
template carries the ticket placeholder (bank index `hash % 3 = 0` with
the early keyword branch not taken); the whole Improdutivo side never
depends on the draw. -/
theorem resposta_templada_deterministica
    (categoria texto : String) (confianca : ℚ) (hashVal t1 t2 : ℕ)
    (h : categoria = "Produtivo" →
      resposta_produtiva_contextual (pyLower texto) confianca = true ∨ hashVal % 3 ≠ 0) :
    gerar_resposta_inteligente categoria texto confianca hashVal t1 =
      gerar_resposta_inteligente categoria texto confianca hashVal t2 := by
  unfold gerar_resposta_inteligente
  by_cases hcat : categoria = "Produtivo"
  · simp only [if_pos hcat]
    have hh := h hcat
    unfold gerar_resposta_produtiva
    by_cases h8 : confianca > 0.8
    · simp only [if_pos h8]
      by_cases k1 : (["erro", "bug", "não funciona", "fora do ar"].any
          (fun w => contemSub w (pyLower texto))) = true
      · simp only [if_pos k1]
      · simp only [if_neg k1]
        by_cases k2 : (["dúvida", "como fazer", "configurar"].any
            (fun w => contemSub w (pyLower texto))) = true
        · simp only [if_pos k2]
        · simp only [if_neg k2]
          by_cases k3 : (["urgente", "prioridade", "crítico"].any
              (fun w => contemSub w (pyLower texto))) = true
          · simp only [if_pos k3]
          · simp only [if_neg k3]
            have hr : hashVal % 3 ≠ 0 := by
              rcases hh with hctx | hr
              · exfalso
                unfold resposta_produtiva_contextual at hctx
                rw [decide_eq_true h8] at hctx
                simp only [Bool.true_and] at hctx
                simp [k1, k2, k3] at hctx
              · exact hr
            exact banco_produtivo_sem_ticket hr _ _
    · simp only [if_neg h8]
      have hr : hashVal % 3 ≠ 0 := by
        rcases hh with hctx | hr
        · exfalso
          unfold resposta_produtiva_contextual at hctx
          rw [decide_eq_false h8] at hctx
          simp at hctx
        · exact hr
      exact banco_produtivo_sem_ticket hr _ _
  · simp only [if_neg hcat]

/-- C3 (witness): determinism instantiated on the Improdutivo side at a
concrete input, where the hypothesis is discharged vacuously. -/
theorem resposta_templada_deterministica_witness :
    gerar_resposta_inteligente "Improdutivo" "olá" 0.5 0 1 =
      gerar_resposta_inteligente "Improdutivo" "olá" 0.5 0 2 :=
  resposta_templada_deterministica "Improdutivo" "olá" 0.5 0 1 2
    (fun hcat => absurd hcat (by decide))

/-! ### Batch processing, history and metrics claims -/

/-- An item processor that always raises, exercising the `except` branch
of `processar_lote`. -/
def proc_falha : String → Except String RegistroLote :=
  fun _ => .error "Requisição de email inválida: texto ausente"

/-- C8 (counterexample): a failed item's error record carries category
`"ERRO"`, not `"ERROR"`, and on the empty batch `processar_lote` raises
`ZeroDivisionError` (the closing log line divides by `len(emails)`)
instead of returning an empty sequence. -/
theorem processar_lote_erro_literal :
    processar_lote proc_falha ["oi"] =
      .ok [registro_erro "Requisição de email inválida: texto ausente" "oi"] ∧
    (registro_erro "Requisição de email inválida: texto ausente" "oi").categoria = "ERRO" ∧
    (registro_erro "Requisição de email inválida: texto ausente" "oi").categoria ≠ "ERROR" ∧
    processar_lote proc_falha [] = .error "ZeroDivisionError" := by
  refine ⟨rfl, rfl, ?_, rfl⟩
  decide

/-- C8 (amended): for every nonempty input sequence, `processar_lote`
returns a sequence of the same length in the same order, where each
failed item is replaced in place by the error record (category `"ERRO"`,
confidence 0.0, truncated echo, fixed failure message) and every other
item is processed — one failure never aborts the batch or reorders
results.  The empty batch instead raises `ZeroDivisionError`. -/
theorem processar_lote_isolamento (proc : String → Except String RegistroLote)
    (emails : List String) (h : emails ≠ []) :
    processar_lote proc emails =
      .ok (emails.map (fun e =>
        match proc e with
        | .ok r => r
        | .error m => registro_erro m e)) ∧
    (emails.map (fun e =>
      match proc e with
      | .ok r => r
      | .error m => registro_erro m e)).length = emails.length := by
  constructor
  · unfold processar_lote
    rw [if_neg (by simpa using h)]
  · exact List.length_map _ _

/-- A concrete item processor for the batch witness: items shorter than
10 characters fail validation, the others succeed. -/
def proc_exemplo : String → Except String RegistroLote :=
  fun texto =>
    if texto.trim.length < 10 then .error "Texto do email muito curto"
    else .ok { categoria := "Produtivo"
               confianca := 0.9
               resposta_sugerida := "Agradecemos seu contato."
               texto_processado := texto
               erro := none }

/-- C8 (witness): a three item batch whose middle item fails yields three
records in order, the middle one being the error record. -/
theorem processar_lote_isolamento_witness :
    (["Preciso de ajuda com um erro", "oi", "Muito obrigado pela ajuda"] : List String) ≠ [] ∧
    processar_lote proc_exemplo
        ["Preciso de ajuda com um erro", "oi", "Muito obrigado pela ajuda"] =
      .ok [ { categoria := "Produtivo", confianca := 0.9,
              resposta_sugerida := "Agradecemos seu contato.",
              texto_processado := "Preciso de ajuda com um erro", erro := none },
            registro_erro "Texto do email muito curto" "oi",
            { categoria := "Produtivo", confianca := 0.9,
              resposta_sugerida := "Agradecemos seu contato.",
              texto_processado := "Muito obrigado pela ajuda", erro := none } ] := by
  refine ⟨by decide, ?_⟩
  rw [(processar_lote_isolamento proc_exemplo
    ["Preciso de ajuda com um erro", "oi", "Muito obrigado pela ajuda"] (by decide)).1]
  with_unfolding_all rfl

/-- C9: the classification history never exceeds 100 entries: every
history reachable from the empty one by `_registrar_classificacao` calls
has length at most 100, each call preserves the bound, and a call on a
full buffer drops exactly the oldest entry (index 0) before the append. -/
theorem historico_limitado :
    (∀ es : List EntradaHistorico,
      (es.foldl registrar_classificacao []).length ≤ 100) ∧
    (∀ (hist : List EntradaHistorico) (e : EntradaHistorico), hist.length ≤ 100 →
      (registrar_classificacao hist e).length ≤ 100 ∧
      (hist.length = 100 → registrar_classificacao hist e = hist.drop 1 ++ [e])) := by
  have preserva : ∀ (hist : List EntradaHistorico) (e : EntradaHistorico),
      hist.length ≤ 100 → (registrar_classificacao hist e).length ≤ 100 := by
    intro hist e hlen
    simp only [registrar_classificacao]
    split
    · rename_i hgt
      simp only [List.length_drop, List.length_append, List.length_cons,
        List.length_nil] at *
      omega
    · rename_i hng
      simp only [List.length_append, List.length_cons, List.length_nil] at *
      omega
  constructor
  · intro es
    have geral : ∀ (l : List EntradaHistorico) (hist : List EntradaHistorico),
        hist.length ≤ 100 → (l.foldl registrar_classificacao hist).length ≤ 100 := by
      intro l
      induction l with
      | nil => intro hist hh; simpa using hh
      | cons e l ih =>
        intro hist hh
        simpa [List.foldl_cons] using ih _ (preserva hist e hh)
    exact geral es [] (by simp)
  · intro hist e hlen
    refine ⟨preserva hist e hlen, fun h100 => ?_⟩
    simp only [registrar_classificacao]
    rw [if_pos (by simp [h100])]
    rw [List.drop_append_of_le_length (by omega)]

/-- A sample history entry for the witness. -/
def entrada_exemplo : EntradaHistorico :=
  { timestamp := 0, metodo := "huggingface", categoria := "Produtivo", confianca := 0.9 }

/-- C9 (witness): the bound applied to a registration on the empty
history. -/
theorem historico_limitado_witness :
    ([] : List EntradaHistorico).length ≤ 100 ∧
    (registrar_classificacao [] entrada_exemplo).length ≤ 100 :=
  ⟨by decide, (historico_limitado.2 [] entrada_exemplo (by decide)).1⟩

/-- C10: along every sequence of `_atualizar_metricas` calls from the
all zero state, the productive and unproductive counters sum to the
total, and the reported ratio `taxa_sucesso_produtivo` lies in [0, 1]. -/
theorem metricas_invariante (chamadas : List (CategoriaEmail × ℚ)) :
    (chamadas.foldl (fun m c => atualizar_metricas m c.1 c.2)
        metricas_iniciais).emails_produtivos +
      (chamadas.foldl (fun m c => atualizar_metricas m c.1 c.2)
        metricas_iniciais).emails_improdutivos =
      (chamadas.foldl (fun m c => atualizar_metricas m c.1 c.2)
        metricas_iniciais).total_emails_processados ∧
    0 ≤ taxa_sucesso_produtivo (chamadas.foldl (fun m c => atualizar_metricas m c.1 c.2)
        metricas_iniciais) ∧
    taxa_sucesso_produtivo (chamadas.foldl (fun m c => atualizar_metricas m c.1 c.2)
        metricas_iniciais) ≤ 1 := by
  have soma : ∀ (l : List (CategoriaEmail × ℚ)) (m : Metricas),
      m.emails_produtivos + m.emails_improdutivos = m.total_emails_processados →
      (l.foldl (fun m c => atualizar_metricas m c.1 c.2) m).emails_produtivos +
        (l.foldl (fun m c => atualizar_metricas m c.1 c.2) m).emails_improdutivos =
        (l.foldl (fun m c => atualizar_metricas m c.1 c.2) m).total_emails_processados := by
    intro l
    induction l with
    | nil => intro m hm; simpa using hm
    | cons c l ih =>
      intro m hm
      rw [List.foldl_cons]
      apply ih
      by_cases hc : c.1 = CategoriaEmail.PRODUTIVO
      · simp only [atualizar_metricas, if_pos hc]
        omega
      · simp only [atualizar_metricas, if_neg hc]
        omega
  have hsum := soma chamadas metricas_iniciais (by simp [metricas_iniciais])
  refine ⟨hsum, ?_, ?_⟩
  · unfold taxa_sucesso_produtivo
    split
    · positivity
    · norm_num
  · unfold taxa_sucesso_produtivo
    split
    · rename_i hpos
      rw [div_le_one (by exact_mod_cast hpos)]
      exact_mod_cast Nat.le.intro hsum
    · norm_num

end EmailClassifier
